import Mathlib

/-
Verification development for the Squad Up application
(src/src/main.tsx and src/api/send-notification.js).

The TypeScript/JavaScript code is shallowly embedded: React state and
Supabase calls become explicit data (lists of issued backend requests,
an optional toast message), JS numbers become Int/Nat, nullable or
optional JS values become Option, and JS Date parsing of the
"YYYY-MM-DDTHH:MM" strings built by the code is modelled by an explicit
proleptic-Gregorian calendar computation returning Option Int
(none plays the role of NaN / Invalid Date).
-/

namespace SquadUp

/-! ## Data model (main.tsx lines 38-88) -/

/-- Valid contact methods for squad leaders (CONTACT_TYPES). -/
inductive ContactType
  | Email
  | Phone
  | Text
  | Link
deriving DecidableEq, Repr

/-- Contact field of a squad: a tagged pair of method and value. -/
structure Contact where
  ctype : ContactType
  value : String
deriving DecidableEq, Repr

/-- Member entry kept on the client (Squad.members element). The
joinedAt instant is Option Int because it comes from a JS Date parse
(none plays the role of NaN). -/
structure Member where
  name : String
  note : Option String
  joinedAt : Option Int
deriving DecidableEq, Repr

/-- The client-side Squad type (main.tsx lines 54-68). The optional
message field is Option String (none for JS undefined). -/
structure Squad where
  id : String
  title : String
  leaderName : String
  date : String
  time : String
  location : String
  discipline : String
  capacity : Int
  message : Option String
  contact : Contact
  leaderPin : String
  members : List Member
  createdAt : Option Int
deriving DecidableEq, Repr

/-- Row shape of the squads table as returned from Supabase
(main.tsx lines 73-88). message is Option String (none for SQL null). -/
structure DBSquad where
  id : String
  title : String
  leader_name : String
  date : String
  time : String
  location : String
  discipline : String
  capacity : Int
  message : Option String
  contact_type : ContactType
  contact_value : String
  leader_pin : String
  created_at : String
  created_by : Option String
deriving DecidableEq, Repr

/-! ## JS Date parsing model

The code builds strings of the shape "YYYY-MM-DDTHH:MM" and feeds them
to new Date(...).getTime(). We model that parse for the canonical
ECMAScript date-time format, at a fixed zero UTC offset, returning
Option Int milliseconds (none plays the role of NaN for a malformed
string). -/

/-- Model of the JS string trim method: drop whitespace from both ends.
Written on character lists by structural recursion so that concrete
inputs evaluate inside the kernel. -/
def jsTrim (s : String) : String :=
  String.mk (((s.data.dropWhile Char.isWhitespace).reverse.dropWhile Char.isWhitespace).reverse)

/-- Model of String.prototype.toLowerCase. -/
def jsToLower (s : String) : String :=
  String.mk (s.data.map Char.toLower)

/-- Split a character list at every occurrence of the separator
character; the accumulator holds the current piece reversed. -/
def splitOnCharAux (sep : Char) : List Char → List Char → List (List Char)
  | [], acc => [acc.reverse]
  | c :: rest, acc =>
    if c == sep then acc.reverse :: splitOnCharAux sep rest []
    else splitOnCharAux sep rest (c :: acc)

/-- Model of String.prototype.split with a one-character separator. -/
def splitOnChar (sep : Char) (s : String) : List (List Char) :=
  splitOnCharAux sep s.data []

/-- Accumulate the value of a run of decimal digits. -/
def parseNatDigits : List Char → Nat → Nat
  | [], acc => acc
  | c :: rest, acc => parseNatDigits rest (acc * 10 + (c.toNat - 48))

/-- Parse a nonempty all-digit character list as a natural number;
none otherwise. -/
def parseNatAll (cs : List Char) : Option Nat :=
  if cs.isEmpty || !cs.all Char.isDigit then none else some (parseNatDigits cs 0)

/-- Days from the Unix epoch 1970-01-01 for a civil date with year at
least 1, via the standard era/year-of-era computation. -/
def daysFromCivil (y m d : Nat) : Int :=
  let ys := if m ≤ 2 then y - 1 else y
  let era := ys / 400
  let yoe := ys % 400
  let doy := (153 * (if 2 < m then m - 3 else m + 9) + 2) / 5 + d - 1
  let doe := yoe * 365 + yoe / 4 - yoe / 100 + doy
  (era * 146097 + doe : Int) - 719468

/-- Parse the "YYYY-MM-DD" part of a date string into epoch
milliseconds of its midnight; none for a malformed date. -/
def dateMs (s : String) : Option Int :=
  match splitOnChar '-' s with
  | [ystr, mstr, dstr] =>
    match parseNatAll ystr, parseNatAll mstr, parseNatAll dstr with
    | some y, some m, some d =>
      if 1 ≤ y ∧ 1 ≤ m ∧ m ≤ 12 ∧ 1 ≤ d ∧ d ≤ 31 then
        some (daysFromCivil y m d * 86400000)
      else none
    | _, _, _ => none
  | _ => none

/-- Parse the "HH:MM" (or "HH:MM:SS") part of a date-time string into
milliseconds past midnight; none for a malformed time. -/
def timeMs (s : String) : Option Int :=
  match splitOnChar ':' s with
  | [hstr, mstr] =>
    match parseNatAll hstr, parseNatAll mstr with
    | some h, some mi =>
      if h ≤ 23 ∧ mi ≤ 59 then some ((h : Int) * 3600000 + (mi : Int) * 60000)
      else none
    | _, _ => none
  | [hstr, mstr, sstr] =>
    match parseNatAll hstr, parseNatAll mstr, parseNatAll sstr with
    | some h, some mi, some sec =>
      if h ≤ 23 ∧ mi ≤ 59 ∧ sec ≤ 59 then
        some ((h : Int) * 3600000 + (mi : Int) * 60000 + (sec : Int) * 1000)
      else none
    | _, _, _ => none
  | _ => none

/-- Model of new Date(str).getTime() for the "YYYY-MM-DDTHH:MM"
strings the code builds: none stands for NaN. -/
def jsDateMs (s : String) : Option Int :=
  match splitOnChar 'T' s with
  | [d] => dateMs (String.mk d)
  | [d, t] =>
    match dateMs (String.mk d), timeMs (String.mk t) with
    | some dm, some tm => some (dm + tm)
    | _, _ => none
  | _ => none

/-! ## Small pure helpers (main.tsx lines 122-160) -/

/-- Utility for cleaning phone numbers (main.tsx line 122):
p.replace removing every character that is not a digit or a plus
sign, i.e. a character filter keeping only '+' and the digits. -/
def sanitizePhone (p : String) : String :=
  String.mk (p.data.filter fun c => c == '+' || c.isDigit)

/-- The combined date-time key used both by the byUpcoming comparator
(main.tsx line 155) and by the only-upcoming filter (line 409):
new Date(date + "T" + (time or "00:00")).getTime(), where an empty
time string is falsy in JS and so replaced by "00:00". -/
def byUpcomingKey (s : Squad) : Option Int :=
  jsDateMs (s.date ++ "T" ++ (if s.time = "" then "00:00" else s.time))

/-- The byUpcoming comparator value (main.tsx lines 155-160):
keyA - keyB as a JS number, with none standing for NaN when either
date string fails to parse. -/
def byUpcomingCmp (a b : Squad) : Option Int :=
  match byUpcomingKey a, byUpcomingKey b with
  | some x, some y => some (x - y)
  | _, _ => none

/-- Boolean form of the comparator for the sort model: a sorts no
later than b. A NaN comparator value is treated as 0 (no reorder),
as the JS engines do. -/
def sortLe (a b : Squad) : Bool :=
  match byUpcomingCmp a b with
  | some v => v ≤ 0
  | none => true

/-! ## Regex matchers used by the forms (main.tsx lines 587-598)

Each JS regex is embedded with its existential matching semantics:
the string matches iff some decomposition fits the pattern. -/

/-- Character class of the email regex pieces: anything that is
neither whitespace nor an at sign. -/
def emailOkChar (c : Char) : Bool :=
  !c.isWhitespace && c != '@'

/-- Matcher for a final nonempty run of email-ok characters. -/
def emailTail (cs : List Char) : Bool :=
  !cs.isEmpty && cs.all emailOkChar

/-- Matcher for a run of email-ok characters followed by a literal
dot and a nonempty email-ok run, entered after at least one
character of the run has been consumed. -/
def emailDotTail : List Char → Bool
  | [] => false
  | c :: rest => (c == '.' && emailTail rest) || (emailOkChar c && emailDotTail rest)

/-- Matcher for the part after the at sign: a nonempty email-ok run,
a dot, and a nonempty email-ok run. -/
def emailDomain : List Char → Bool
  | [] => false
  | c :: rest => emailOkChar c && emailDotTail rest

/-- Matcher for the rest of the address once at least one local
character has been consumed: more local characters, then an at sign
and the domain part. -/
def emailAfterLocal : List Char → Bool
  | [] => false
  | c :: rest => (c == '@' && emailDomain rest) || (emailOkChar c && emailAfterLocal rest)

/-- Model of the anchored email regex test used by both forms:
one or more non-space non-at characters, an at sign, one or more,
a dot, one or more. -/
def emailMatch (s : String) : Bool :=
  match s.data with
  | [] => false
  | c :: rest => emailOkChar c && emailAfterLocal rest

/-- Character class of the phone regex body: digit, whitespace,
parenthesis, dot or hyphen. -/
def phoneBodyChar (c : Char) : Bool :=
  c.isDigit || c.isWhitespace || c == '(' || c == ')' || c == '.' || c == '-'

/-- Model of the anchored phone regex test used by both forms: an
optional leading plus, a digit, then at least six characters drawn
from digits, whitespace, parentheses, dot and hyphen. -/
def phoneMatch (s : String) : Bool :=
  let cs := match s.data with
    | '+' :: rest => rest
    | other => other
  match cs with
  | [] => false
  | c :: rest => c.isDigit && decide (6 ≤ rest.length) && rest.all phoneBodyChar

/-- Model of the anchored six-digit PIN regex test. -/
def pinMatch (s : String) : Bool :=
  s.data.length == 6 && s.data.all Char.isDigit

/-! ## PostForm validation (main.tsx lines 564-635) -/

/-- The PostForm field state: one entry per useState hook of the
form. capacity is the JS number held by the input, as an Int. -/
structure PostDraft where
  title : String
  leaderName : String
  date : String
  time : String
  location : String
  discipline : String
  capacity : Int
  message : String
  contactType : ContactType
  contactValue : String
  leaderPin : String
deriving DecidableEq, Repr

/-- The errors object built by validate(): one optional message per
key ever assigned. -/
structure FormErrors where
  title : Option String
  leaderName : Option String
  date : Option String
  time : Option String
  location : Option String
  capacity : Option String
  contact : Option String
  leaderPin : Option String
deriving DecidableEq, Repr

/-- The empty errors object. -/
def noErrors : FormErrors :=
  ⟨none, none, none, none, none, none, none, none⟩

/-- The errors object computed by PostForm's validate()
(main.tsx lines 578-601). The source assigns e.key under each
condition in order, and a later assignment to the same key
overwrites an earlier one; each field below is therefore the last
assignment of that key whose condition holds. The contact key is
assigned by the required, email and phone checks in that order, and
the leaderPin key by the required check or, failing that, the
six-digit check. -/
def validateErrors (d : PostDraft) : FormErrors where
  title := if jsTrim d.title = "" then some "Title is required" else none
  leaderName := if jsTrim d.leaderName = "" then some "Leader name is required" else none
  date := if d.date = "" then some "Date is required" else none
  time := if d.time = "" then some "Time is required" else none
  location := if jsTrim d.location = "" then some "Location is required" else none
  capacity := if d.capacity < 1 then some "Capacity must be at least 1" else none
  contact :=
    if (d.contactType = ContactType.Phone ∨ d.contactType = ContactType.Text) ∧
        phoneMatch (jsTrim d.contactValue) = false then some "Enter a valid phone number"
    else if d.contactType = ContactType.Email ∧ emailMatch (jsTrim d.contactValue) = false then
      some "Enter a valid email"
    else if jsTrim d.contactValue = "" then some "Contact detail is required"
    else none
  leaderPin :=
    if jsTrim d.leaderPin = "" then some "PIN is required"
    else if pinMatch (jsTrim d.leaderPin) = false then some "PIN must be 6 digits"
    else none

/-- validate()'s boolean result: true iff no error key was assigned. -/
def validateOk (d : PostDraft) : Bool :=
  validateErrors d == noErrors

/-- The draft passed to addSquad by PostForm's submit handler
(main.tsx lines 603-635): the squad fields without id, members and
createdAt. message is always the trimmed string here (possibly
empty), so it is some. -/
structure SquadDraft where
  title : String
  leaderName : String
  date : String
  time : String
  location : String
  discipline : String
  capacity : Int
  message : Option String
  contact : Contact
  leaderPin : String
deriving DecidableEq, Repr

/-- PostForm submit (main.tsx lines 603-623): returns none when
validate() blocks the submission, otherwise the sanitized draft
handed to onSubmit. -/
def postSubmit (d : PostDraft) : Option SquadDraft :=
  if validateOk d = false then none
  else some
    { title := (jsTrim d.title)
      leaderName := (jsTrim d.leaderName)
      date := d.date
      time := d.time
      location := (jsTrim d.location)
      discipline := d.discipline
      capacity := d.capacity
      message := some (jsTrim d.message)
      contact :=
        ⟨d.contactType,
          if d.contactType = ContactType.Phone ∨ d.contactType = ContactType.Text then
            sanitizePhone d.contactValue
          else (jsTrim d.contactValue)⟩
      leaderPin := (jsTrim d.leaderPin) }

/-! ## EditModal validation and submit (main.tsx lines 1044-1113) -/

/-- The EditModal field state (no PIN field: the PIN cannot be
edited). -/
structure EditForm where
  title : String
  leaderName : String
  date : String
  time : String
  location : String
  discipline : String
  capacity : Int
  message : String
  contactType : ContactType
  contactValue : String
deriving DecidableEq, Repr

/-- The errors object computed by EditModal's validate()
(main.tsx lines 1066-1087): the same keyed assignments as PostForm
minus the PIN checks, written field-wise with the same
last-assignment-wins reading as validateErrors. -/
def editValidateErrors (f : EditForm) : FormErrors where
  title := if jsTrim f.title = "" then some "Title is required" else none
  leaderName := if jsTrim f.leaderName = "" then some "Leader name is required" else none
  date := if f.date = "" then some "Date is required" else none
  time := if f.time = "" then some "Time is required" else none
  location := if jsTrim f.location = "" then some "Location is required" else none
  capacity := if f.capacity < 1 then some "Capacity must be at least 1" else none
  contact :=
    if (f.contactType = ContactType.Phone ∨ f.contactType = ContactType.Text) ∧
        phoneMatch (jsTrim f.contactValue) = false then some "Enter a valid phone number"
    else if f.contactType = ContactType.Email ∧ emailMatch (jsTrim f.contactValue) = false then
      some "Enter a valid email"
    else if jsTrim f.contactValue = "" then some "Contact detail is required"
    else none
  leaderPin := none

/-- EditModal submit (main.tsx lines 1089-1113): none when its
validate() blocks the save, otherwise the full Squad handed to
onSave; id, members, createdAt and leaderPin are carried over from
the squad being edited, and an empty trimmed message becomes
undefined. -/
def editSubmit (sq : Squad) (f : EditForm) : Option Squad :=
  if editValidateErrors f == noErrors then
    some
      { id := sq.id
        members := sq.members
        createdAt := sq.createdAt
        leaderPin := sq.leaderPin
        title := (jsTrim f.title)
        leaderName := (jsTrim f.leaderName)
        date := f.date
        time := f.time
        location := (jsTrim f.location)
        discipline := f.discipline
        capacity := f.capacity
        message := if (jsTrim f.message) = "" then none else some (jsTrim f.message)
        contact :=
          ⟨f.contactType,
            if f.contactType = ContactType.Phone ∨ f.contactType = ContactType.Text then
              sanitizePhone f.contactValue
            else (jsTrim f.contactValue)⟩ }
  else none

/-! ## DTO mapping (main.tsx lines 92-107 and 315-333) -/

/-- The squad part produced by mapFromDB: a Squad without members
(main.tsx lines 92-107). createdAt is the JS Date parse of the
created_at string. -/
structure SquadCore where
  id : String
  title : String
  leaderName : String
  date : String
  time : String
  location : String
  discipline : String
  capacity : Int
  message : Option String
  contact : Contact
  leaderPin : String
  createdAt : Option Int
deriving DecidableEq, Repr

/-- Convert a row from the database into the client squad shape
(main.tsx lines 92-107). row.message ?? undefined maps SQL null to
the absent message. -/
def mapFromDB (row : DBSquad) : SquadCore :=
  { id := row.id
    title := row.title
    leaderName := row.leader_name
    date := row.date
    time := row.time
    location := row.location
    discipline := row.discipline
    capacity := row.capacity
    message := row.message
    contact := ⟨row.contact_type, row.contact_value⟩
    leaderPin := row.leader_pin
    createdAt := jsDateMs row.created_at }

/-- The row inserted by addSquad (main.tsx lines 315-333):
camelCase flattened to snake_case, the contact pair split into
contact_type and contact_value, and data.message ?? null storing an
absent message as SQL null (both are none here). -/
structure InsertSquadRow where
  title : String
  leader_name : String
  date : String
  time : String
  location : String
  discipline : String
  capacity : Int
  message : Option String
  contact_type : ContactType
  contact_value : String
  leader_pin : String
  created_by : Option String
deriving DecidableEq, Repr

/-- The insert payload addSquad builds from a draft and the current
session user id (main.tsx lines 317-330). -/
def addSquadRow (d : SquadDraft) (userId : Option String) : InsertSquadRow :=
  { title := d.title
    leader_name := d.leaderName
    date := d.date
    time := d.time
    location := d.location
    discipline := d.discipline
    capacity := d.capacity
    message := d.message
    contact_type := d.contact.ctype
    contact_value := d.contact.value
    leader_pin := d.leaderPin
    created_by := userId }

/-- The squads-table row the backend stores for an insert payload,
once the backend has assigned the id and created_at columns. -/
def storedRow (r : InsertSquadRow) (id created_at : String) : DBSquad :=
  { id := id
    title := r.title
    leader_name := r.leader_name
    date := r.date
    time := r.time
    location := r.location
    discipline := r.discipline
    capacity := r.capacity
    message := r.message
    contact_type := r.contact_type
    contact_value := r.contact_value
    leader_pin := r.leader_pin
    created_at := created_at
    created_by := r.created_by }

/-! ## Mutation handlers (main.tsx lines 315-399)

Supabase calls become explicit request values and the setToast calls
become an optional toast value, so each handler is a pure function
from its arguments and the current in-memory list to the requests it
issues and the toast it shows. -/

/-- Toast kinds (main.tsx line 247). -/
inductive ToastKind
  | info
  | success
  | error
deriving DecidableEq, Repr

/-- A one-shot status message. -/
structure Toast where
  kind : ToastKind
  text : String
deriving DecidableEq, Repr

/-- A column value in an update payload: a string, an integer, or
SQL null. -/
inductive DBVal
  | str (s : String)
  | int (i : Int)
  | null
deriving DecidableEq, Repr

/-- A backend request issued by a mutation handler. -/
inductive BackendReq
  | insertSquad (row : InsertSquadRow)
  | insertMember (squad_id : String) (name : String) (note : Option String)
  | deleteSquadById (id : String)
  | updateSquadById (id : String) (payload : List (String × DBVal))
deriving DecidableEq, Repr

/-- Observable outcome of one mutation handler call: the backend
requests it issued and the toast it set. -/
structure MutationOutcome where
  requests : List BackendReq
  toast : Option Toast
deriving DecidableEq, Repr

/-- Result of the awaited backend delete call; deleteSquad never
inspects it. -/
inductive BackendResult
  | ok
  | failed (err : String)
deriving DecidableEq, Repr

/-- Handler to delete a squad (main.tsx lines 352-361): looks the
squad up in the in-memory list, silently returns when it is absent,
rejects a wrong PIN locally without issuing a request, and otherwise
issues the delete by id and shows success without inspecting the
delete's result. -/
def deleteSquad (squads : List Squad) (id pin : String) (deleteResult : BackendResult) : MutationOutcome :=
  match squads.find? fun x => x.id == id with
  | none => ⟨[], none⟩
  | some s =>
    if pin ≠ s.leaderPin then ⟨[], some ⟨ToastKind.error, "PIN is incorrect"⟩⟩
    else
      match deleteResult with
      | _ => ⟨[BackendReq.deleteSquadById id], some ⟨ToastKind.success, "Squad deleted"⟩⟩

/-- Handler to open the edit modal (main.tsx lines 364-375): returns
the toast set and the squad put into editTarget. -/
def startEdit (squads : List Squad) (id pin : String) : Option Toast × Option Squad :=
  match squads.find? fun x => x.id == id with
  | none => (some ⟨ToastKind.error, "Not found"⟩, none)
  | some s =>
    if pin ≠ s.leaderPin then (some ⟨ToastKind.error, "PIN is incorrect"⟩, none)
    else (none, some s)

/-- The string literal a contact type is stored as (CONTACT_TYPES,
main.tsx line 48). -/
def ctypeStr : ContactType → String
  | ContactType.Email => "Email"
  | ContactType.Phone => "Phone"
  | ContactType.Text => "Text"
  | ContactType.Link => "Link"

/-- The update payload saveEdit sends (main.tsx lines 382-395), as
the ordered list of column/value pairs of the object literal. -/
def saveEditPayload (u : Squad) : List (String × DBVal) :=
  [("title", DBVal.str u.title),
   ("leader_name", DBVal.str u.leaderName),
   ("date", DBVal.str u.date),
   ("time", DBVal.str u.time),
   ("location", DBVal.str u.location),
   ("discipline", DBVal.str u.discipline),
   ("capacity", DBVal.int u.capacity),
   ("message", match u.message with | some m => DBVal.str m | none => DBVal.null),
   ("contact_type", DBVal.str (ctypeStr u.contact.ctype)),
   ("contact_value", DBVal.str u.contact.value),
   ("leader_pin", DBVal.str u.leaderPin)]

/-- Handler to save edits to a squad (main.tsx lines 380-399):
issues one update by id with the payload above and shows success. -/
def saveEdit (u : Squad) : MutationOutcome :=
  ⟨[BackendReq.updateSquadById u.id (saveEditPayload u)], some ⟨ToastKind.success, "Squad updated"⟩⟩

/-- Handler to add a squad (main.tsx lines 315-333): inserts the
mapped row and shows success without inspecting the insert's
result. -/
def addSquad (d : SquadDraft) (userId : Option String) : MutationOutcome :=
  ⟨[BackendReq.insertSquad (addSquadRow d userId)], some ⟨ToastKind.success, "Squad posted"⟩⟩

/-! ## Occupancy figures in SquadCard (main.tsx lines 793-795) -/

/-- used = 1 + squad.members.length: the leader plus the joined
members. -/
def used (s : Squad) : Int :=
  1 + s.members.length

/-- left = Math.max(0, capacity - used). -/
def left (s : Squad) : Int :=
  max 0 (s.capacity - used s)

/-- full = (left === 0). -/
def full (s : Squad) : Bool :=
  left s == 0

/-- The join button carries disabled = full (main.tsx line 850). -/
def joinDisabled (s : Squad) : Bool :=
  full s

/-! ## Filter/sort view (main.tsx lines 404-422) -/

/-- The client-side filter state (main.tsx line 244). -/
structure Filters where
  query : String
  discipline : String
  onlyUpcoming : Bool
deriving DecidableEq, Repr

/-- The only-upcoming check inside visible (main.tsx lines 408-412):
drop squads whose combined instant is older than 24h, fixed at
86400000 ms. A squad whose date string fails to parse gives NaN and
every NaN comparison is false, so such a squad is kept. -/
def upcomingKeep (now : Int) (s : Squad) : Bool :=
  match byUpcomingKey s with
  | some w => !(w < now - 86400000)
  | none => true

/-- The discipline check inside visible (main.tsx line 413). -/
def disciplineKeep (f : Filters) (s : Squad) : Bool :=
  !(f.discipline != "All" && s.discipline != f.discipline)

/-- Substring test on character lists: does the first list occur
contiguously inside the second? Models String.prototype.includes. -/
def listIncl : List Char → List Char → Bool
  | needle, [] => needle.isEmpty
  | needle, c :: rest => needle.isPrefixOf (c :: rest) || listIncl needle rest

/-- The haystack the query is matched against (main.tsx line 416):
title, location, message (empty when absent) and leader name joined
by single spaces. -/
def hayOf (s : Squad) : String :=
  s.title ++ " " ++ s.location ++ " " ++ s.message.getD "" ++ " " ++ s.leaderName

/-- The free-text query check inside visible (main.tsx lines
414-418): an empty query is falsy and skips the check, otherwise a
lowercase substring test. -/
def queryKeep (f : Filters) (s : Squad) : Bool :=
  if f.query = "" then true
  else listIncl (jsToLower f.query).data (jsToLower (hayOf s)).data

/-- The whole filter body of visible (main.tsx lines 407-420). -/
def keepSquad (f : Filters) (now : Int) (s : Squad) : Bool :=
  (!f.onlyUpcoming || upcomingKeep now s) && disciplineKeep f s && queryKeep f s

/-- Stable insertion of an element into a list already sorted by the
boolean comparator. -/
def insertLe (le : Squad → Squad → Bool) (x : Squad) : List Squad → List Squad
  | [] => [x]
  | y :: ys => if le x y then x :: y :: ys else y :: insertLe le x ys

/-- Stable insertion sort modelling Array.prototype.sort with the
byUpcoming comparator. -/
def sortByLe (le : Squad → Squad → Bool) : List Squad → List Squad
  | [] => []
  | x :: xs => insertLe le x (sortByLe le xs)

/-- The visible list (main.tsx lines 404-422): filter by the
only-upcoming, discipline and query checks, then sort by the
byUpcoming comparator. now is Date.now() at evaluation time. -/
def visible (squads : List Squad) (f : Filters) (now : Int) : List Squad :=
  sortByLe sortLe (squads.filter (keepSquad f now))

/-! ## Email relay handler (src/api/send-notification.js) -/

/-- The JSON body of a relay request; each field may be absent. -/
structure RelayBody where
  email : Option String
  subject : Option String
  message : Option String
deriving DecidableEq, Repr

/-- Outcome of the awaited fetch to the email provider together with
the parse of its JSON body: either the provider's JSON payload, or a
thrown error anywhere in the try block. -/
inductive RelayOutcome
  | ok (payload : String)
  | throws
deriving DecidableEq, Repr

/-- A response body written by the handler: either one of its own
message objects or the provider payload proxied back. -/
inductive RespBody
  | msg (text : String)
  | proxied (payload : String)
deriving DecidableEq, Repr

/-- An HTTP response of the handler: status code and body. -/
structure RelayResponse where
  status : Nat
  body : RespBody
deriving DecidableEq, Repr

/-- The serverless email relay handler (send-notification.js lines
8-46). req.body may be absent (req.body || \x7b\x7d), the email and
the API key are tested with JS truthiness, so an empty string
behaves like an absent one. -/
def relayHandler (method : String) (body : Option RelayBody) (apiKey : Option String)
    (relay : RelayOutcome) : RelayResponse :=
  if method ≠ "POST" then ⟨405, RespBody.msg "Method not allowed"⟩
  else
    let email := (body.getD ⟨none, none, none⟩).email
    if email = none ∨ email = some "" then ⟨400, RespBody.msg "Missing email"⟩
    else if apiKey = none ∨ apiKey = some "" then
      ⟨500, RespBody.msg "RESEND_API_KEY is not configured"⟩
    else
      match relay with
      | RelayOutcome.ok payload => ⟨200, RespBody.proxied payload⟩
      | RelayOutcome.throws => ⟨500, RespBody.msg "Failed to send email"⟩

/-! ## Concrete example data used by witnesses -/

/-- A concrete squad used to instantiate theorems. -/
def exSquad : Squad :=
  { id := "s1"
    title := "Saturday clays"
    leaderName := "Ann"
    date := "2024-01-02"
    time := "00:00"
    location := "Club"
    discipline := "Trap"
    capacity := 4
    message := none
    contact := ⟨ContactType.Email, "a@b.c"⟩
    leaderPin := "111111"
    members := []
    createdAt := some 0 }

/-- A concrete squad with capacity 4 and three joined members. -/
def exSquadThree : Squad :=
  { exSquad with
    id := "s2"
    members := [⟨"Bob", none, some 1⟩, ⟨"Cal", some "new", some 2⟩, ⟨"Dee", none, some 3⟩] }

/-- A concrete edit-form state whose validation passes. -/
def exEditForm : EditForm :=
  { title := "Sunday trap"
    leaderName := "Ann"
    date := "2024-01-03"
    time := "09:00"
    location := "Range"
    discipline := "Trap"
    capacity := 5
    message := ""
    contactType := ContactType.Phone
    contactValue := "+1 (555) 123-4567" }

/-! ## Helper lemmas -/

/-- Membership is preserved by the stable insertion step. -/
theorem mem_insertLe (le : Squad → Squad → Bool) (x a : Squad) (l : List Squad) :
    a ∈ insertLe le x l ↔ a = x ∨ a ∈ l := by
  induction l with
  | nil => simp [insertLe]
  | cons y ys ih =>
    simp only [insertLe]
    split
    · simp [List.mem_cons]
    · simp [List.mem_cons, ih]
      tauto

/-- Membership is preserved by the insertion sort that models
Array.prototype.sort. -/
theorem mem_sortByLe (le : Squad → Squad → Bool) (a : Squad) (l : List Squad) :
    a ∈ sortByLe le l ↔ a ∈ l := by
  induction l with
  | nil => simp [sortByLe]
  | cons y ys ih => simp [sortByLe, mem_insertLe, ih, eq_comm]

/-! ## C1: the frame of saveEdit -/

/-- C1 (counterexample): the claim says the update payload issued by
saveEdit contains no leader_pin field, but on a concrete squad the
payload does contain the pair ("leader_pin", "111111"). -/
theorem saveEdit_payload_writes_leader_pin :
    ("leader_pin", DBVal.str "111111") ∈ saveEditPayload exSquad ∧
    "leader_pin" ∈ (saveEditPayload exSquad).map Prod.fst := by
  constructor
  · simp [saveEditPayload, exSquad]
  · simp [saveEditPayload]

/-- C1 (amended): the update payload of saveEdit writes exactly the
mutable columns plus leader_pin; it contains no id, created_at or
member columns, and the leader_pin value written is the one carried
on the squad passed in, which the edit flow (editSubmit) always sets
to the stored PIN of the squad being edited, so id, members,
creation timestamp and the stored PIN value are unchanged by an
edit. -/
theorem saveEdit_frame (u sq : Squad) (f : EditForm) :
    (saveEditPayload u).map Prod.fst =
      ["title", "leader_name", "date", "time", "location", "discipline", "capacity",
       "message", "contact_type", "contact_value", "leader_pin"] ∧
    "id" ∉ (saveEditPayload u).map Prod.fst ∧
    "created_at" ∉ (saveEditPayload u).map Prod.fst ∧
    "members" ∉ (saveEditPayload u).map Prod.fst ∧
    "squad_id" ∉ (saveEditPayload u).map Prod.fst ∧
    (saveEdit u).requests = [BackendReq.updateSquadById u.id (saveEditPayload u)] ∧
    (List.lookup "leader_pin" (saveEditPayload u) = some (DBVal.str u.leaderPin)) ∧
    (∀ u', editSubmit sq f = some u' →
      u'.leaderPin = sq.leaderPin ∧ u'.id = sq.id ∧ u'.createdAt = sq.createdAt ∧
      u'.members = sq.members) := by
  refine ⟨rfl, by simp [saveEditPayload], by simp [saveEditPayload],
    by simp [saveEditPayload], by simp [saveEditPayload], rfl, by simp [saveEditPayload, List.lookup],
    fun u' h => ?_⟩
  unfold editSubmit at h
  split at h
  · injection h with h
    subst h
    exact ⟨rfl, rfl, rfl, rfl⟩
  · exact absurd h (by simp)

/-- C1 (witness): the amended theorem applied to a concrete squad
and a concrete passing edit form. -/
theorem saveEdit_frame_witness :
    "created_at" ∉ (saveEditPayload exSquad).map Prod.fst ∧
    ((editSubmit exSquad exEditForm).getD exSquad).leaderPin = exSquad.leaderPin := by
  refine ⟨(saveEdit_frame exSquad exSquad exEditForm).2.2.1, ?_⟩
  have h : editSubmit exSquad exEditForm =
      some ((editSubmit exSquad exEditForm).getD exSquad) := by decide
  exact ((saveEdit_frame exSquad exSquad exEditForm).2.2.2.2.2.2.2 _ h).1

/-! ## C2: storage round-trip -/

/-- C2: mapping a domain squad draft to a storage row the way
addSquad does and back through mapFromDB reproduces every field
value exactly, id, leaderPin and the timestamps aside; an absent
message is stored as SQL null and comes back absent. -/
theorem roundtrip_addSquad_mapFromDB (d : SquadDraft) (userId : Option String)
    (id created_at : String) :
    (mapFromDB (storedRow (addSquadRow d userId) id created_at)).title = d.title ∧
    (mapFromDB (storedRow (addSquadRow d userId) id created_at)).leaderName = d.leaderName ∧
    (mapFromDB (storedRow (addSquadRow d userId) id created_at)).date = d.date ∧
    (mapFromDB (storedRow (addSquadRow d userId) id created_at)).time = d.time ∧
    (mapFromDB (storedRow (addSquadRow d userId) id created_at)).location = d.location ∧
    (mapFromDB (storedRow (addSquadRow d userId) id created_at)).discipline = d.discipline ∧
    (mapFromDB (storedRow (addSquadRow d userId) id created_at)).capacity = d.capacity ∧
    (mapFromDB (storedRow (addSquadRow d userId) id created_at)).message = d.message ∧
    (mapFromDB (storedRow (addSquadRow d userId) id created_at)).contact = d.contact ∧
    (d.message = none →
      (addSquadRow d userId).message = none ∧
      (mapFromDB (storedRow (addSquadRow d userId) id created_at)).message = none) := by
  refine ⟨rfl, rfl, rfl, rfl, rfl, rfl, rfl, rfl, rfl, fun h => ⟨?_, ?_⟩⟩ <;>
    simp [addSquadRow, storedRow, mapFromDB, h]

/-- C2 (witness): the round trip at a concrete draft with an absent
message. -/
theorem roundtrip_addSquad_mapFromDB_witness :
    (mapFromDB (storedRow
        (addSquadRow ⟨"Saturday clays", "Ann", "2024-01-02", "09:30", "Club", "Trap", 4, none,
          ⟨ContactType.Email, "a@b.c"⟩, "111111"⟩ (some "u1")) "row1" "2024-01-01T12:00")).message =
      none := by
  exact (roundtrip_addSquad_mapFromDB
    ⟨"Saturday clays", "Ann", "2024-01-02", "09:30", "Club", "Trap", 4, none,
      ⟨ContactType.Email, "a@b.c"⟩, "111111"⟩ (some "u1") "row1" "2024-01-01T12:00").2.2.2.2.2.2.2.2.2
    rfl |>.2

/-! ## C3: PostForm validation -/

/-- Helper: a one-branch conditional error value is none iff its
condition fails. -/
theorem ite_some_none_eq_none_iff {c : Prop} [Decidable c] {s : String} :
    (if c then some s else none) = none ↔ ¬c := by
  split_ifs <;> simp_all

/-- Helper: a two-branch conditional error value is none iff both
conditions fail. -/
theorem ite2_some_none_eq_none_iff {c1 c2 : Prop} [Decidable c1] [Decidable c2]
    {s1 s2 : String} :
    (if c1 then some s1 else if c2 then some s2 else none) = none ↔ ¬c1 ∧ ¬c2 := by
  split_ifs <;> simp_all

/-- Helper: a three-branch conditional error value is none iff all
three conditions fail. -/
theorem ite3_some_none_eq_none_iff {c1 c2 c3 : Prop} [Decidable c1] [Decidable c2] [Decidable c3]
    {s1 s2 s3 : String} :
    (if c1 then some s1 else if c2 then some s2 else if c3 then some s3 else none) = none ↔
      ¬c1 ∧ ¬c2 ∧ ¬c3 := by
  split_ifs <;> simp_all

/-- C3: PostForm's validate() returns false, blocking submission,
iff at least one required field is empty or malformed per the form
rules, with the error recorded under the field's key: an empty
(trimmed) title errors under "title", contact type Email with value
"not-an-email" errors under "contact", and PIN "12a456" errors
under "leaderPin"; a draft with every required field present and
well-formed passes, since none of the disjuncts holds. -/
theorem postForm_validate_char (d : PostDraft) :
    (validateOk d = false ↔
      (jsTrim d.title = "" ∨ jsTrim d.leaderName = "" ∨ d.date = "" ∨ d.time = "" ∨
       jsTrim d.location = "" ∨ d.capacity < 1 ∨ jsTrim d.contactValue = "" ∨
       (d.contactType = ContactType.Email ∧ emailMatch (jsTrim d.contactValue) = false) ∨
       ((d.contactType = ContactType.Phone ∨ d.contactType = ContactType.Text) ∧
         phoneMatch (jsTrim d.contactValue) = false) ∨
       jsTrim d.leaderPin = "" ∨ pinMatch (jsTrim d.leaderPin) = false)) ∧
    (postSubmit d = none ↔ validateOk d = false) ∧
    (jsTrim d.title = "" → (validateErrors d).title = some "Title is required") ∧
    (d.contactType = ContactType.Email → d.contactValue = "not-an-email" →
      (validateErrors d).contact = some "Enter a valid email") ∧
    (d.leaderPin = "12a456" → (validateErrors d).leaderPin = some "PIN must be 6 digits") := by
  refine ⟨?_, ?_, ?_, ?_, ?_⟩
  · rw [validateOk, beq_eq_false_iff_ne, ne_eq]
    simp only [validateErrors, noErrors, FormErrors.mk.injEq,
      ite_some_none_eq_none_iff, ite2_some_none_eq_none_iff, ite3_some_none_eq_none_iff]
    tauto
  · simp only [postSubmit]
    split <;> simp_all
  · intro h
    simp [validateErrors, h]
  · intro h1 h2
    simp [validateErrors, h1, h2]
    decide
  · intro h
    simp [validateErrors, h]
    decide

/-- A concrete draft with every required field present and
well-formed. -/
def exDraftGood : PostDraft :=
  { title := "Saturday clays"
    leaderName := "Ann"
    date := "2024-01-06"
    time := "09:00"
    location := "Club"
    discipline := "Sporting Clays"
    capacity := 4
    message := "Easy pace"
    contactType := ContactType.Email
    contactValue := "ann@example.com"
    leaderPin := "123456" }

/-- The good draft with the title blanked. -/
def exDraftNoTitle : PostDraft :=
  { exDraftGood with title := "" }

/-- The good draft with a malformed email contact value. -/
def exDraftBadEmail : PostDraft :=
  { exDraftGood with contactValue := "not-an-email" }

/-- The good draft with a malformed PIN. -/
def exDraftBadPin : PostDraft :=
  { exDraftGood with leaderPin := "12a456" }

/-- C3 (witness): the validation characterization applied at the
four concrete drafts. -/
theorem postForm_validate_char_witness :
    (validateErrors exDraftNoTitle).title = some "Title is required" ∧
    (validateErrors exDraftBadEmail).contact = some "Enter a valid email" ∧
    (validateErrors exDraftBadPin).leaderPin = some "PIN must be 6 digits" ∧
    postSubmit exDraftNoTitle = none ∧
    validateOk exDraftGood = true := by
  refine ⟨(postForm_validate_char exDraftNoTitle).2.2.1 (by decide),
    (postForm_validate_char exDraftBadEmail).2.2.2.1 rfl rfl,
    (postForm_validate_char exDraftBadPin).2.2.2.2 rfl,
    (postForm_validate_char exDraftNoTitle).2.1.mpr
      ((postForm_validate_char exDraftNoTitle).1.mpr (Or.inl (by decide))), ?_⟩
  cases hb : validateOk exDraftGood
  · exact absurd ((postForm_validate_char exDraftGood).1.mp hb) (by decide)
  · rfl

/-! ## C4: the only-upcoming filter threshold -/

/-- C4: with onlyUpcoming enabled (and the other filters neutral),
the visible derivation keeps a parseable squad iff its combined
date+time instant w satisfies now - 86400000 ≤ w, i.e. it drops
exactly the squads more than 86400000 ms in the past; a squad
exactly 86400000 ms in the past (now = w + 86400000) is kept and
one exactly 86400001 ms in the past is dropped. -/
theorem visible_only_upcoming (squads : List Squad) (now : Int) (s : Squad) (w : Int)
    (h : byUpcomingKey s = some w) :
    (s ∈ visible squads ⟨"", "All", true⟩ now ↔ s ∈ squads ∧ now - 86400000 ≤ w) ∧
    upcomingKeep (w + 86400000) s = true ∧
    upcomingKeep (w + 86400001) s = false ∧
    s ∈ visible [s] ⟨"", "All", true⟩ (w + 86400000) ∧
    s ∉ visible [s] ⟨"", "All", true⟩ (w + 86400001) := by
  have hkeep : ∀ (l : List Squad) (n : Int),
      s ∈ visible l ⟨"", "All", true⟩ n ↔ s ∈ l ∧ upcomingKeep n s = true := by
    intro l n
    rw [visible, mem_sortByLe, List.mem_filter]
    simp [keepSquad, disciplineKeep, queryKeep]
  have hup : ∀ n : Int, upcomingKeep n s = true ↔ n - 86400000 ≤ w := by
    intro n
    simp [upcomingKeep, h, not_lt]
  refine ⟨by rw [hkeep, hup], (hup _).mpr (by omega), ?_, ?_, ?_⟩
  · have := hup (w + 86400001)
    cases hb : upcomingKeep (w + 86400001) s
    · rfl
    · exact absurd (this.mp hb) (by omega)
  · exact (hkeep [s] _).mpr ⟨by simp, (hup _).mpr (by omega)⟩
  · intro hmem
    exact absurd ((hup _).mp ((hkeep [s] _).mp hmem).2) (by omega)

/-- C4 (witness): the threshold behavior at a concrete squad whose
combined instant is 1704153600000 (2024-01-02T00:00). -/
theorem visible_only_upcoming_witness :
    exSquad ∈ visible [exSquad] ⟨"", "All", true⟩ (1704153600000 + 86400000) ∧
    exSquad ∉ visible [exSquad] ⟨"", "All", true⟩ (1704153600000 + 86400001) :=
  ⟨(visible_only_upcoming [exSquad] 0 exSquad 1704153600000 (by decide)).2.2.2.1,
   (visible_only_upcoming [exSquad] 0 exSquad 1704153600000 (by decide)).2.2.2.2⟩

/-! ## C5: the deleteSquad PIN gate -/

/-- C5: when the id is found in the in-memory list, deleteSquad with
a wrong PIN sets the "PIN is incorrect" error toast and issues no
backend request; with the stored PIN it issues exactly the delete by
id and sets the success toast, and its outcome never depends on the
result of the delete call. -/
theorem deleteSquad_pin_gate (squads : List Squad) (id pin : String) (s : Squad)
    (r r' : BackendResult) (h : squads.find? (fun x => x.id == id) = some s) :
    (pin ≠ s.leaderPin →
      deleteSquad squads id pin r = ⟨[], some ⟨ToastKind.error, "PIN is incorrect"⟩⟩) ∧
    (pin = s.leaderPin →
      deleteSquad squads id pin r =
        ⟨[BackendReq.deleteSquadById id], some ⟨ToastKind.success, "Squad deleted"⟩⟩) ∧
    deleteSquad squads id pin r = deleteSquad squads id pin r' := by
  refine ⟨fun hne => ?_, fun heq => ?_, ?_⟩
  · simp [deleteSquad, h, hne]
  · simp [deleteSquad, h, heq]
  · rfl

/-- C5 (witness): the spec's concrete PIN-gate scenario, against a
stored PIN "111111". -/
theorem deleteSquad_pin_gate_witness :
    deleteSquad [exSquad] "s1" "000000" BackendResult.ok =
      ⟨[], some ⟨ToastKind.error, "PIN is incorrect"⟩⟩ ∧
    deleteSquad [exSquad] "s1" "111111" BackendResult.ok =
      ⟨[BackendReq.deleteSquadById "s1"], some ⟨ToastKind.success, "Squad deleted"⟩⟩ :=
  ⟨(deleteSquad_pin_gate [exSquad] "s1" "000000" exSquad BackendResult.ok BackendResult.ok
      (by decide)).1 (by decide),
   (deleteSquad_pin_gate [exSquad] "s1" "111111" exSquad BackendResult.ok BackendResult.ok
      (by decide)).2.1 rfl⟩

/-! ## C6: occupancy figures -/

/-- C6: the occupancy figures of SquadCard satisfy
used = 1 + members.length, left = max 0 (capacity - used) and
full iff left = 0, the join button being disabled exactly when full;
for capacity 4 with three members this gives used 4, left 0, full,
join disabled. -/
theorem squadCard_occupancy (s : Squad) :
    used s = 1 + s.members.length ∧
    left s = max 0 (s.capacity - used s) ∧
    (full s = true ↔ left s = 0) ∧
    joinDisabled s = full s ∧
    (s.capacity = 4 → s.members.length = 3 →
      used s = 4 ∧ left s = 0 ∧ full s = true ∧ joinDisabled s = true) := by
  refine ⟨rfl, rfl, by simp [full], rfl, fun hc hm => ?_⟩
  have hu : used s = 4 := by simp [used, hm]
  refine ⟨hu, ?_, ?_, ?_⟩ <;> simp [left, full, joinDisabled, hu, hc]

/-- C6 (witness): the occupancy figures at a concrete squad with
capacity 4 and three members. -/
theorem squadCard_occupancy_witness :
    used exSquadThree = 4 ∧ left exSquadThree = 0 ∧ full exSquadThree = true ∧
    joinDisabled exSquadThree = true :=
  (squadCard_occupancy exSquadThree).2.2.2.2 (by decide) (by decide)

/-! ## C8: unknown id in deleteSquad versus startEdit -/

/-- C8: for an id absent from the in-memory list, deleteSquad
returns silently, issuing no request and setting no toast, while
startEdit on the same unknown id sets the "Not found" error toast
(and opens no edit target). -/
theorem unknown_id_delete_vs_startEdit (squads : List Squad) (id pin : String)
    (r : BackendResult) (h : squads.find? (fun x => x.id == id) = none) :
    deleteSquad squads id pin r = ⟨[], none⟩ ∧
    startEdit squads id pin = (some ⟨ToastKind.error, "Not found"⟩, none) := by
  constructor <;> simp [deleteSquad, startEdit, h]

/-- C8 (witness): the contrast at a concrete list not containing the
id "zz". -/
theorem unknown_id_delete_vs_startEdit_witness :
    deleteSquad [exSquad] "zz" "111111" BackendResult.ok = ⟨[], none⟩ ∧
    startEdit [exSquad] "zz" "111111" = (some ⟨ToastKind.error, "Not found"⟩, none) :=
  unknown_id_delete_vs_startEdit [exSquad] "zz" "111111" BackendResult.ok (by decide)

/-! ## C7: the email relay handler statuses -/

/-- C7 (counterexample): the claim says a POST carrying an email
field but no configured RESEND_API_KEY is answered 500, but the
handler tests the email with JS truthiness, so a POST whose body
has email present but equal to the empty string is answered 400,
not 500, even with no key configured. -/
theorem relayHandler_empty_email_counterexample :
    relayHandler "POST" (some ⟨some "", none, none⟩) none (RelayOutcome.ok "r") =
      ⟨400, RespBody.msg "Missing email"⟩ ∧
    (relayHandler "POST" (some ⟨some "", none, none⟩) none (RelayOutcome.ok "r")).status ≠ 500 := by
  constructor <;> decide

/-- C7 (amended): a non-POST method is answered 405; a POST whose
body lacks the email field or carries an empty email is answered
400; a POST with a nonempty email but an absent or empty
RESEND_API_KEY, or one where the relay call throws, is answered
500; otherwise the provider's JSON payload is proxied back with
status 200. -/
theorem relayHandler_statuses (method : String) (body : Option RelayBody)
    (apiKey : Option String) (payload : String) :
    (method ≠ "POST" → ∀ relay,
      relayHandler method body apiKey relay = ⟨405, RespBody.msg "Method not allowed"⟩) ∧
    (method = "POST" →
      (((body.getD ⟨none, none, none⟩).email = none ∨
        (body.getD ⟨none, none, none⟩).email = some "") → ∀ relay,
        relayHandler method body apiKey relay = ⟨400, RespBody.msg "Missing email"⟩) ∧
      (¬((body.getD ⟨none, none, none⟩).email = none ∨
         (body.getD ⟨none, none, none⟩).email = some "") →
        ((apiKey = none ∨ apiKey = some "" → ∀ relay,
          relayHandler method body apiKey relay =
            ⟨500, RespBody.msg "RESEND_API_KEY is not configured"⟩) ∧
         (¬(apiKey = none ∨ apiKey = some "") →
           relayHandler method body apiKey RelayOutcome.throws =
             ⟨500, RespBody.msg "Failed to send email"⟩ ∧
           relayHandler method body apiKey (RelayOutcome.ok payload) =
             ⟨200, RespBody.proxied payload⟩)))) := by
  refine ⟨fun hm relay => by simp [relayHandler, hm],
    fun hm => ⟨fun he relay => by simp [relayHandler, hm, he],
      fun he => ⟨fun hk relay => by simp [relayHandler, hm, he, hk],
        fun hk => ⟨by simp [relayHandler, hm, he, hk], by simp [relayHandler, hm, he, hk]⟩⟩⟩⟩

/-- C7 (witness): the amended case analysis applied at concrete
requests, one per status. -/
theorem relayHandler_statuses_witness :
    relayHandler "GET" (some ⟨some "a@b.c", none, none⟩) (some "k") (RelayOutcome.ok "r") =
      ⟨405, RespBody.msg "Method not allowed"⟩ ∧
    relayHandler "POST" (some ⟨none, some "s", some "m"⟩) (some "k") (RelayOutcome.ok "r") =
      ⟨400, RespBody.msg "Missing email"⟩ ∧
    relayHandler "POST" (some ⟨some "a@b.c", none, none⟩) none (RelayOutcome.ok "r") =
      ⟨500, RespBody.msg "RESEND_API_KEY is not configured"⟩ ∧
    relayHandler "POST" (some ⟨some "a@b.c", none, none⟩) (some "k") RelayOutcome.throws =
      ⟨500, RespBody.msg "Failed to send email"⟩ ∧
    relayHandler "POST" (some ⟨some "a@b.c", none, none⟩) (some "k") (RelayOutcome.ok "r") =
      ⟨200, RespBody.proxied "r"⟩ :=
  ⟨(relayHandler_statuses "GET" (some ⟨some "a@b.c", none, none⟩) (some "k") "r").1
      (by decide) _,
   ((relayHandler_statuses "POST" (some ⟨none, some "s", some "m"⟩) (some "k") "r").2
      rfl).1 (Or.inl rfl) _,
   (((relayHandler_statuses "POST" (some ⟨some "a@b.c", none, none⟩) none "r").2
      rfl).2 (by decide)).1 (Or.inl rfl) _,
   ((((relayHandler_statuses "POST" (some ⟨some "a@b.c", none, none⟩) (some "k") "r").2
      rfl).2 (by decide)).2 (by decide)).1,
   ((((relayHandler_statuses "POST" (some ⟨some "a@b.c", none, none⟩) (some "k") "r").2
      rfl).2 (by decide)).2 (by decide)).2⟩

/-! ## C9: phone sanitisation -/

/-- Helper: filtering a character list twice with the same keep
predicate equals filtering once. -/
theorem filter_keep_idem (pr : Char → Bool) (l : List Char) :
    (l.filter pr).filter pr = l.filter pr :=
  List.filter_eq_self.mpr fun _ ha => List.of_mem_filter ha

/-- Helper: every character of a sanitized phone string is a digit
or a plus sign. -/
theorem sanitizePhone_all (v : String) :
    (sanitizePhone v).data.all (fun c => c == '+' || c.isDigit) = true := by
  apply List.all_eq_true.mpr
  intro c hc
  have hm : c ∈ List.filter (fun c => c == '+' || c.isDigit) v.data := hc
  exact (List.mem_filter.mp hm).2

/-- C9: sanitizePhone keeps exactly the characters that are a
decimal digit or a plus sign and is idempotent; both the post form
and the edit form submit the sanitized contact value exactly when
the contact type is Phone or Text (and the merely trimmed value
otherwise), so submitted Phone/Text contact values consist only of
digits and plus signs. -/
theorem sanitizePhone_char (p : String) (d : PostDraft) (sq : Squad) (f : EditForm) :
    (∀ c : Char, c ∈ (sanitizePhone p).data ↔ c ∈ p.data ∧ (c = '+' ∨ c.isDigit = true)) ∧
    sanitizePhone (sanitizePhone p) = sanitizePhone p ∧
    (∀ out, postSubmit d = some out →
      out.contact.value =
        (if d.contactType = ContactType.Phone ∨ d.contactType = ContactType.Text then
          sanitizePhone d.contactValue
        else jsTrim d.contactValue) ∧
      ((d.contactType = ContactType.Phone ∨ d.contactType = ContactType.Text) →
        out.contact.value.data.all (fun c => c == '+' || c.isDigit) = true)) ∧
    (∀ u, editSubmit sq f = some u →
      u.contact.value =
        (if f.contactType = ContactType.Phone ∨ f.contactType = ContactType.Text then
          sanitizePhone f.contactValue
        else jsTrim f.contactValue) ∧
      ((f.contactType = ContactType.Phone ∨ f.contactType = ContactType.Text) →
        u.contact.value.data.all (fun c => c == '+' || c.isDigit) = true)) := by
  refine ⟨fun c => ?_, by simp [sanitizePhone, filter_keep_idem], fun out h => ?_, fun u h => ?_⟩
  · simp [sanitizePhone, List.mem_filter, Bool.or_eq_true, beq_iff_eq]
  · rw [postSubmit] at h
    split at h
    · exact absurd h (by simp)
    · injection h with h
      subst h
      refine ⟨rfl, fun hpt => ?_⟩
      show ((if d.contactType = ContactType.Phone ∨ d.contactType = ContactType.Text then
        sanitizePhone d.contactValue else jsTrim d.contactValue)).data.all _ = true
      rw [if_pos hpt]
      exact sanitizePhone_all d.contactValue
  · rw [editSubmit] at h
    split at h
    · injection h with h
      subst h
      refine ⟨rfl, fun hpt => ?_⟩
      show ((if f.contactType = ContactType.Phone ∨ f.contactType = ContactType.Text then
        sanitizePhone f.contactValue else jsTrim f.contactValue)).data.all _ = true
      rw [if_pos hpt]
      exact sanitizePhone_all f.contactValue
    · exact absurd h (by simp)

/-- A throwaway fallback draft used only to read a value out of an
Option with getD in witnesses. -/
def exDraftFallback : SquadDraft :=
  ⟨"", "", "", "", "", "", 0, none, ⟨ContactType.Email, ""⟩, ""⟩

/-- A concrete post-form state whose contact type is Phone. -/
def exDraftPhone : PostDraft :=
  { exDraftGood with
    contactType := ContactType.Phone
    contactValue := "+1 (555) 123-4567" }

/-- C9 (witness): the sanitisation at a concrete phone draft. -/
theorem sanitizePhone_char_witness :
    sanitizePhone "+1 (555) 123-4567" = "+15551234567" ∧
    ((postSubmit exDraftPhone).getD exDraftFallback).contact.value = "+15551234567" := by
  constructor
  · decide
  · have h : postSubmit exDraftPhone =
        some ((postSubmit exDraftPhone).getD exDraftFallback) := by decide
    have hv := ((sanitizePhone_char "" exDraftPhone exSquad exEditForm).2.2.1 _ h).1
    rw [hv]
    decide

/-! ## C10: empty time treated as midnight -/

/-- C10: a squad whose time is the empty string has its combined
instant computed from date + "T00:00": its sort key, its comparator
value against any other squad, and its only-upcoming check all
coincide with those of the same squad explicitly timed "00:00". -/
theorem empty_time_is_midnight (s t : Squad) (now : Int) :
    byUpcomingKey { s with time := "" } = jsDateMs (s.date ++ "T00:00") ∧
    byUpcomingKey { s with time := "" } = byUpcomingKey { s with time := "00:00" } ∧
    upcomingKeep now { s with time := "" } = upcomingKeep now { s with time := "00:00" } ∧
    byUpcomingCmp { s with time := "" } t = byUpcomingCmp { s with time := "00:00" } t ∧
    byUpcomingCmp t { s with time := "" } = byUpcomingCmp t { s with time := "00:00" } ∧
    sortLe { s with time := "" } t = sortLe { s with time := "00:00" } t ∧
    sortLe t { s with time := "" } = sortLe t { s with time := "00:00" } := by
  have hkey : byUpcomingKey { s with time := "" } = byUpcomingKey { s with time := "00:00" } :=
    rfl
  refine ⟨?_, hkey, ?_, ?_, ?_, ?_, ?_⟩
  · show jsDateMs (s.date ++ "T" ++ "00:00") = jsDateMs (s.date ++ "T00:00")
    rw [String.append_assoc]
    rfl
  · simp [upcomingKeep, hkey]
  · simp [byUpcomingCmp, hkey]
  · simp [byUpcomingCmp, hkey]
  · simp [sortLe, byUpcomingCmp, hkey]
  · simp [sortLe, byUpcomingCmp, hkey]

end SquadUp
